import Mathlib

/- A verification model of the Neochess realtime server
   (src/neochess-server/src/server.js).

   The JavaScript module-level state (`users`, `sockets`, `timers`,
   `timesync`, `currentGameId`, `joinableGames`, `watchableGames`,
   `playerReceivedLastmove`, `lastMoveFromGame`, plus the MongoDB `games`
   collection, which the server treats as a write-through mirror) is
   embedded as an explicit `ServerState`.  Socket emissions, room joins
   and database operations are recorded in an ordered `Event` list.  A
   thrown JavaScript exception is modelled by the `err` field of
   `Outcome`; state mutations and emissions performed before the throw
   are retained, exactly as in JavaScript, and the `try/catch` wrapper of
   each socket handler turns `err` into the handler's catch behaviour.

   `setInterval` handles are fresh naturals.  The list `activeLoops`
   tracks every interval that has been created and not yet cleared via
   `clearInterval`, so an interval handle that is overwritten without
   being cleared remains scheduled (this matches the JavaScript runtime,
   where only `clearInterval` stops a scheduled interval).

   The chess.js library is the external rules oracle of the design; the
   handlers are parameterised by an `Oracle` record supplying exactly the
   chess.js calls the server makes.  A rejected move leaves the position
   unchanged, as `chess.js`'s `move` does (the server never checks the
   return value of `move`). -/

namespace Neochess

/-- JavaScript string coercion used when a possibly-`null` database field
    is concatenated into an object key, as in `timers[username + gameId]`:
    `null` prints as "null". -/
def jsShow : Option String → String
  | some s => s
  | none => "null"

/-- JavaScript string coercion for possibly-undefined values (a failed
    lookup in a plain object): `undefined` prints as "undefined". -/
def jsShowU : Option String → String
  | some s => s
  | none => "undefined"

/-- Key/value store update for the plain JavaScript objects the server
    uses as maps (`obj[k] = v`). -/
def alSet {α : Type} : List (String × α) → String → α → List (String × α)
  | [], k, v => [(k, v)]
  | (k', v') :: t, k, v => if k' = k then (k, v) :: t else (k', v') :: alSet t k v

/-- Removal of a key (used for `timesync[gameId] = null`, which makes the
    subsequent truthiness test `if (timesync[gameId])` fail exactly like a
    missing key). -/
def alRemove {α : Type} (l : List (String × α)) (k : String) : List (String × α) :=
  l.filter (fun p => p.1 ≠ k)

/- ## Data model (mirrors the game document created in the newGame handler) -/

/-- Payload of a `move` event: `const {username, gameId, fen, move} = movedata`. -/
structure MoveData where
  username : String
  gameId : String
  fen : Option String
  move : String
deriving DecidableEq

/-- An entry of `joinableGames` / `watchableGames`. -/
structure LobbyEntry where
  host : Option String
  timeControl : String
  gameId : String
deriving DecidableEq

/-- One of `players.white` / `players.black` in the game document. -/
structure PlayerSlot where
  username : Option String
  time : Option Int
deriving DecidableEq

/-- `state` sub-document of a game. -/
structure GameStateRec where
  fen : String
  joinable : Bool
  started : Bool
  finished : Bool
  lastMove : Option String
deriving DecidableEq

/-- `history` sub-document of a game. -/
structure HistoryRec where
  pgn : String
  moves : List String
deriving DecidableEq

/-- `result` sub-document of a game. -/
structure GameResult where
  description : Option String
  winner : Option String
deriving DecidableEq

/-- A game document.  Only `timeControl.string` is ever read by the
    server, so the unused `minutes`/`increment` fields are not modelled. -/
structure Game where
  host : Option String
  guest : Option String
  white : PlayerSlot
  black : PlayerSlot
  timeControlString : String
  state : GameStateRec
  history : HistoryRec
  result : GameResult
deriving DecidableEq

/-- A field-level `$set` update as passed to `updateGame` (absent fields
    are left unchanged, matching `findOneAndUpdate` with `$set`). -/
structure GameUpdate where
  fen : Option String := none
  lastMove : Option (Option String) := none
  pgn : Option String := none
  moves : Option (List String) := none
  joinable : Option Bool := none
  started : Option Bool := none
  finished : Option Bool := none
  resultDescription : Option (Option String) := none
  resultWinner : Option (Option String) := none
  whiteSeat : Option (Option String) := none
  blackSeat : Option (Option String) := none
  guest : Option (Option String) := none
  whiteTime : Option Int := none
  blackTime : Option Int := none
deriving DecidableEq

/-- An entry of `timers`: `{loop, time}`.  `loop` holds the interval
    handle or `null`. -/
structure Timer where
  loop : Option Nat
  time : Int
deriving DecidableEq

/-- An entry of `timesync`: the two interval handles plus the
    per-username last acknowledgment timestamps (milliseconds). -/
structure TimeSyncRec where
  mainLoop : Nat
  ackLoop : Nat
  lastTimeSync : List (String × Int)
deriving DecidableEq

/-- What a scheduled interval's callback closes over, so that it can be
    fired later.  `timerLoop` is the per-move decrement loop of the move
    handler; the others are the time-sync loops. -/
inductive LoopKind where
  | timerLoop (opponent : Option String) (gameId : String) (username : String)
  | mainSingle (gameId : String) (username : Option String)
  | ackSingle (gameId : String) (username : Option String)
  | mainDual (gameId : String) (whiteU blackU : Option String)
  | ackDual (gameId : String) (whiteU blackU : Option String)
deriving DecidableEq

/-- A scheduled (not yet cleared) interval. -/
structure ActiveLoop where
  id : Nat
  kind : LoopKind
deriving DecidableEq

/-- The whole module-level state of server.js plus the games collection. -/
structure ServerState where
  games : List (String × Game)
  timers : List (String × Timer)
  timesync : List (String × TimeSyncRec)
  users : List (String × String)
  sockets : List (String × String)
  currentGameId : List (String × String)
  joinableGames : List LobbyEntry
  watchableGames : List LobbyEntry
  playerReceivedLastmove : List (String × Bool)
  lastMoveFromGame : List (String × MoveData)
  activeLoops : List ActiveLoop
  nextLoopId : Nat
  nextGameId : Nat
deriving DecidableEq

/-- Result payload `{result, winner}` passed to `gameOver`. -/
structure ResultData where
  result : Option String
  winner : Option String
deriving DecidableEq

/-- Observable actions: socket emissions, room membership changes,
    database operations, and `console.log` of a caught error. -/
inductive Event where
  | gameOverEvt (room : String) (result : Option String) (winner : Option String)
  | gamesList (toSocket : String) (games : List LobbyEntry) (watchable : List LobbyEntry)
  | moved (room : String) (md : MoveData)
  | updateGameEvt (room : String) (game : Option Game)
  | gameCreated (room : String) (game : Game)
  | gameCreatedErr (toSocket : String)
  | gameJoined (toSocket : String) (game : Game) (watcher : Bool)
  | gameJoinedErr (toSocket : String)
  | timesyncEvt (room : String) (gameId : String) (entries : List (String × Option Int))
  | joinRoom (sid room : String)
  | leaveRoom (sid room : String)
  | dbInsert (gameId : String) (game : Game)
  | dbUpdate (gameId : String) (upd : GameUpdate)
  | logErr (msg : String)
deriving DecidableEq

/-- Result of running a piece of handler code: the state and emissions
    produced so far, plus the exception in flight if one was thrown. -/
structure Outcome where
  state : ServerState
  events : List Event
  err : Option String
deriving DecidableEq

/- ## Server constants -/

/-- `TIMESYNC_TIMEOUT = 180000`. -/
def TIMESYNC_TIMEOUT : Int := 180000

/-- `new chessjs.Chess().fen()`. -/
def initialFen : String :=
  "rnbqkbnr/pppppppp/8/8/8/8/PPPPPPPP/RNBQKBNR w KQkq - 0 1"

/-- The `seconds` table of available time controls. -/
def secondsFor : String → Option Int
  | "1+0" => some 60
  | "3+0" => some 180
  | "5+0" => some 300
  | "10+0" => some 600
  | "15+0" => some 900
  | "30+0" => some 1800
  | _ => none

/- ## Interval and database primitives -/

/-- `setInterval`: schedules a fresh interval and returns its handle. -/
def setIntervalS (st : ServerState) (k : LoopKind) : ServerState × Nat :=
  ({ st with activeLoops := st.activeLoops ++ [⟨st.nextLoopId, k⟩],
             nextLoopId := st.nextLoopId + 1 }, st.nextLoopId)

/-- `clearInterval`: deschedules the interval with the given handle. -/
def clearIntervalS (st : ServerState) (lid : Nat) : ServerState :=
  { st with activeLoops := st.activeLoops.filter (fun al => al.id ≠ lid) }

/-- `getGame`. -/
def getGame (st : ServerState) (gameId : String) : Option Game :=
  st.games.lookup gameId

/-- Field-level merge of a `$set` update into a game document. -/
def applyUpdate (g : Game) (u : GameUpdate) : Game :=
  { host := g.host,
    guest := u.guest.getD g.guest,
    white := { username := u.whiteSeat.getD g.white.username,
               time := match u.whiteTime with
                       | some t => some t
                       | none => g.white.time },
    black := { username := u.blackSeat.getD g.black.username,
               time := match u.blackTime with
                       | some t => some t
                       | none => g.black.time },
    timeControlString := g.timeControlString,
    state := { fen := u.fen.getD g.state.fen,
               joinable := u.joinable.getD g.state.joinable,
               started := u.started.getD g.state.started,
               finished := u.finished.getD g.state.finished,
               lastMove := u.lastMove.getD g.state.lastMove },
    history := { pgn := u.pgn.getD g.history.pgn,
                 moves := u.moves.getD g.history.moves },
    result := { description := u.resultDescription.getD g.result.description,
                winner := u.resultWinner.getD g.result.winner } }

/-- `updateGame`: `findOneAndUpdate` with `$set`; returns the updated
    document, or `none` when no document matches (then `result.value` is
    `null` and the collection is unchanged). -/
def updateGameDoc (st : ServerState) (gameId : String) (u : GameUpdate) :
    ServerState × Option Game × Event :=
  match st.games.lookup gameId with
  | none => (st, none, .dbUpdate gameId u)
  | some g =>
    let g' := applyUpdate g u
    ({ st with games := alSet st.games gameId g' }, some g', .dbUpdate gameId u)

/- ## Viewer-filtered lobby broadcasts -/

/-- The `gamesList` payload built for viewer `u` and emitted to socket
    `sid`: both lists are filtered by `g.host !== u`. -/
def gamesListEventFor (st : ServerState) (u sid : String) : Event :=
  .gamesList sid
    (st.joinableGames.filter (fun g => !(g.host == some u)))
    (st.watchableGames.filter (fun g => !(g.host == some u)))

/-- `for (let u in sockets) io.to(sockets[u]).emit('gamesList', ...)`. -/
def broadcastLists (st : ServerState) : List Event :=
  st.sockets.map (fun p => gamesListEventFor st p.1 p.2)

/- ## The shared finalize path: gameOver (server.js lines 93-139) -/

/-- `if (player && timers[player+gameId].loop) { clearInterval(...); ... = null }`.
    Reading `.loop` of a missing timer entry throws. -/
def stopClock (st : ServerState) (p : Option String) (gameId : String) :
    ServerState × Option String :=
  match p with
  | none => (st, none)
  | some u =>
    match st.timers.lookup (u ++ gameId) with
    | none => (st, some "TypeError: loop of undefined")
    | some tm =>
      match tm.loop with
      | none => (st, none)
      | some lid =>
        let st1 := clearIntervalS st lid
        ({ st1 with timers := alSet st1.timers (u ++ gameId) { tm with loop := none } }, none)

/-- `if (timesync[gameId]) { clearInterval(mainLoop); clearInterval(ackLoop);
    timesync[gameId] = null }`. -/
def clearTimesync (st : ServerState) (gameId : String) : ServerState :=
  match st.timesync.lookup gameId with
  | none => st
  | some ts =>
    let st1 := clearIntervalS (clearIntervalS st ts.mainLoop) ts.ackLoop
    { st1 with timesync := alRemove st1.timesync gameId }

/-- The `gameOver` function.  It reads both sides' timers *before* the
    finished check (these reads throw when a seat is unbound, since
    `timers["null" + gameId]` is undefined), and performs the whole
    finalize only under `if (!game.state.finished)`. -/
def gameOverRun (st : ServerState) (gameId : String) (player1 player2 : Option String)
    (rd : ResultData) : Outcome :=
  match st.games.lookup gameId with
  | none => ⟨st, [], some "TypeError: players of null"⟩
  | some game =>
    match st.timers.lookup (jsShow game.white.username ++ gameId) with
    | none => ⟨st, [], some "TypeError: time of undefined"⟩
    | some tw =>
      match st.timers.lookup (jsShow game.black.username ++ gameId) with
      | none => ⟨st, [], some "TypeError: time of undefined"⟩
      | some tb =>
        let tWhite := max 0 tw.time
        let tBlack := max 0 tb.time
        if game.state.finished then ⟨st, [], none⟩
        else
          let ev0 := Event.gameOverEvt gameId rd.result rd.winner
          match stopClock st player1 gameId with
          | (st1, some e) => ⟨st1, [ev0], some e⟩
          | (st1, none) =>
            match stopClock st1 player2 gameId with
            | (st2, some e) => ⟨st2, [ev0], some e⟩
            | (st2, none) =>
              let st3 := clearTimesync st2 gameId
              let upd : GameUpdate :=
                { finished := some true,
                  resultDescription := some rd.result,
                  resultWinner := some rd.winner,
                  whiteTime := some tWhite,
                  blackTime := some tBlack }
              match updateGameDoc st3 gameId upd with
              | (st4, game2, evU) =>
                let st5 := { st4 with
                  joinableGames := st4.joinableGames.filter (fun g => g.gameId ≠ gameId),
                  watchableGames := st4.watchableGames.filter (fun g => g.gameId ≠ gameId) }
                ⟨st5, [ev0, evU] ++ broadcastLists st5 ++ [Event.updateGameEvt gameId game2],
                 none⟩

/- ## The decrement loop (the setInterval callback of the move handler,
     server.js lines 722-735) -/

/-- One firing of the per-move decrement interval: looks up
    `timers[opponent+gameId]` fresh, writes
    `Math.max(-1, t - 1)` back, and when the new value has crossed the
    floor calls `gameOver(gameId, username, opponent, {result: 'ontime',
    winner: username})`. -/
def timerTick (st : ServerState) (opponent : Option String) (gameId username : String) :
    Outcome :=
  let key := jsShow opponent ++ gameId
  match st.timers.lookup key with
  | none => ⟨st, [], some "TypeError: time of undefined"⟩
  | some tm =>
    let newTime := max (-1) (tm.time - 1)
    let st1 := { st with timers := alSet st.timers key { tm with time := newTime } }
    if newTime ≤ -1 then
      gameOverRun st1 gameId (some username) opponent ⟨some "ontime", some username⟩
    else ⟨st1, [], none⟩

/-- The JavaScript runtime fires a scheduled interval by handle; a
    cleared interval never fires again. -/
def fireLoopIfActive (st : ServerState) (lid : Nat) : Outcome :=
  match st.activeLoops.find? (fun al => al.id == lid) with
  | some al =>
    match al.kind with
    | .timerLoop opp gid u => timerTick st opp gid u
    | _ => ⟨st, [], none⟩
  | none => ⟨st, [], none⟩

/-- The decrement loops currently scheduled for a (participant, session)
    key `username + gameId`. -/
def decLoopsFor (st : ServerState) (key : String) : List ActiveLoop :=
  st.activeLoops.filter (fun al =>
    match al.kind with
    | .timerLoop opp gid _ => jsShow opp ++ gid == key
    | _ => false)

/- ## The rules oracle (chess.js calls made by the move handler) -/

/-- The chess.js calls made by the move handler, on a position identified
    by its pgn.  `movePgn pgn m` is the pgn after `load_pgn(pgn)` followed
    by `move(m)`: chess.js mutates the representation only when the move
    is legal and otherwise leaves it unchanged (the server never checks
    the return value of `move`). -/
structure Oracle where
  movePgn : String → String → String
  fenOfPgn : String → String
  historyOf : String → List String
  isGameOver : String → Bool
  isCheckmate : String → Bool
  isDraw : String → Bool
  isStalemate : String → Bool
  isThreefold : String → Bool
  isInsufficient : String → Bool

/-- A concrete oracle under which every submitted move is illegal
    (chess.js then leaves the position unchanged) and no position is
    terminal. -/
def rejectOracle : Oracle :=
  { movePgn := fun p _ => p,
    fenOfPgn := fun p => p,
    historyOf := fun _ => [],
    isGameOver := fun _ => false,
    isCheckmate := fun _ => false,
    isDraw := fun _ => false,
    isStalemate := fun _ => false,
    isThreefold := fun _ => false,
    isInsufficient := fun _ => false }

/- ## The move handler (server.js lines 655-793) -/

/-- Tail of the move handler after the clock switch: terminal-position
    detection and finalization, or the two `updateGame` emissions. -/
def moveTail (oracle : Oracle) (st : ServerState) (md : MoveData) (newPgn : String)
    (opponent whiteU blackU : Option String) (evs : List Event) (game : Game) : Outcome :=
  if oracle.isGameOver newPgn then
    let result : Option String :=
      if oracle.isCheckmate newPgn then some "checkmate"
      else if oracle.isDraw newPgn then
        (if oracle.isStalemate newPgn then some "draw.stalemate"
         else if oracle.isThreefold newPgn then some "draw.threefold_repetition"
         else if oracle.isInsufficient newPgn then some "draw.insufficient_material"
         else none)
      else none
    let winner : Option String :=
      if oracle.isCheckmate newPgn then some md.username else none
    let o := gameOverRun st md.gameId (some md.username) opponent ⟨result, winner⟩
    ⟨o.state, evs ++ o.events, o.err⟩
  else
    let roomB := jsShow blackU ++ jsShowU (st.sockets.lookup (jsShow blackU)) ++ md.gameId
    let roomW := jsShow whiteU ++ jsShowU (st.sockets.lookup (jsShow whiteU)) ++ md.gameId
    ⟨st, evs ++ [Event.updateGameEvt roomB (some game), Event.updateGameEvt roomW (some game)],
     none⟩

/-- Body of the `socket.on('move')` handler (inside its try block).  Note
    that it reads `username` from the client payload and never consults
    the sending socket, and that the clock restart overwrites
    `timers[opponent+gameId]` with a fresh interval without clearing a
    loop already stored there (the `setInterval` call is evaluated before
    the `.time` read on the right-hand side of the assignment). -/
def moveBody (oracle : Oracle) (st : ServerState) (md : MoveData) : Outcome :=
  match st.games.lookup md.gameId with
  | none => ⟨st, [], some "TypeError: state of null"⟩
  | some game0 =>
    if game0.state.finished then ⟨st, [], none⟩
    else
      let newPgn := oracle.movePgn game0.history.pgn md.move
      let upd1 : GameUpdate :=
        { fen := some (oracle.fenOfPgn newPgn),
          lastMove := some (some md.move),
          pgn := some newPgn,
          moves := some (oracle.historyOf newPgn) }
      match updateGameDoc st md.gameId upd1 with
      | (st1, none, evU1) => ⟨st1, [evU1], some "TypeError: players of null"⟩
      | (st1, some game1, evU1) =>
        let blackU := game1.black.username
        let whiteU := game1.white.username
        let opponent := if some md.username == whiteU then blackU else whiteU
        let orientWhite := some md.username == whiteU
        let st2 := { st1 with
          lastMoveFromGame := alSet st1.lastMoveFromGame md.gameId md,
          playerReceivedLastmove :=
            alSet (alSet st1.playerReceivedLastmove (jsShow blackU ++ md.gameId) false)
              (jsShow whiteU ++ md.gameId) false }
        let evs0 := [evU1, Event.moved md.gameId md]
        match st2.timers.lookup (md.username ++ md.gameId) with
        | none => ⟨st2, evs0, some "TypeError: loop of undefined"⟩
        | some tmU =>
          let st3 :=
            match tmU.loop with
            | some lid =>
              let s := clearIntervalS st2 lid
              { s with timers := alSet s.timers (md.username ++ md.gameId)
                        { tmU with loop := none } }
            | none => st2
          if (!orientWhite) || game1.state.started then
            match setIntervalS st3 (.timerLoop opponent md.gameId md.username) with
            | (st4, lid) =>
              match st4.timers.lookup (jsShow opponent ++ md.gameId) with
              | none => ⟨st4, evs0, some "TypeError: time of undefined"⟩
              | some tmO =>
                let st5 := { st4 with
                  timers := alSet st4.timers (jsShow opponent ++ md.gameId)
                    { loop := some lid, time := tmO.time } }
                match updateGameDoc st5 md.gameId { started := some true } with
                | (st6, game2, evU2) =>
                  moveTail oracle st6 md newPgn opponent whiteU blackU
                    (evs0 ++ [evU2]) (game2.getD game1)
          else
            moveTail oracle st3 md newPgn opponent whiteU blackU evs0 game1

/-- The `socket.on('move')` handler with its try/catch: a thrown error is
    only logged (`console.log(error)`); nothing is emitted to the sender.
    The `sid` argument is the sending socket's id, which the handler
    never uses. -/
def moveHandler (oracle : Oracle) (st : ServerState) (sid : String) (md : MoveData) :
    ServerState × List Event :=
  match moveBody oracle st md with
  | ⟨st1, evs, none⟩ => (st1, evs)
  | ⟨st1, evs, some e⟩ => (st1, evs ++ [Event.logErr e])

/- ## The getGames handler (server.js lines 292-307) -/

/-- `socket.on('getGames')`: emits the lobby to the requesting socket,
    filtered by `g.host !== username` for the requester's username. -/
def getGamesHandler (st : ServerState) (sid : String) : List Event :=
  let username := st.users.lookup sid
  [Event.gamesList sid
    (st.joinableGames.filter (fun g => !(g.host == username)))
    (st.watchableGames.filter (fun g => !(g.host == username)))]

/- ## The newGame handler (server.js lines 309-465) -/

/-- Body of the `socket.on('newGame')` handler.  `coin` models
    `Math.random() < 0.5` (host seated as white when true) and `now`
    models `new Date()` in milliseconds.  A missing `data.timeControl`
    throws at `data.timeControl.split('+')`, before anything is
    persisted. -/
def newGameBody (st : ServerState) (sid : String) (timeControl : Option String)
    (coin : Bool) (now : Int) : Outcome :=
  let username := st.users.lookup sid
  match timeControl with
  | none => ⟨st, [], some "TypeError: split of undefined"⟩
  | some tc =>
    let game : Game :=
      { host := username, guest := none,
        white := ⟨if coin then username else none, secondsFor tc⟩,
        black := ⟨if coin then none else username, secondsFor tc⟩,
        timeControlString := tc,
        state := ⟨initialFen, true, false, false, none⟩,
        history := ⟨"", []⟩,
        result := ⟨none, none⟩ }
    let gameId := "g" ++ toString st.nextGameId
    let st0 := { st with nextGameId := st.nextGameId + 1,
                         games := alSet st.games gameId game }
    let uKey := jsShowU username
    let evsLeave : List Event :=
      match st0.currentGameId.lookup uKey with
      | some prev =>
        [Event.leaveRoom sid prev,
         Event.leaveRoom sid (uKey ++ jsShowU (st0.sockets.lookup uKey) ++ prev)]
      | none => []
    let evsJoin := [Event.joinRoom sid gameId, Event.joinRoom sid (uKey ++ sid ++ gameId)]
    let st1 := { st0 with currentGameId := alSet st0.currentGameId uKey gameId }
    let newTimer : Timer := ⟨none, (secondsFor tc).getD 0⟩
    let st2 := { st1 with timers := alSet st1.timers (uKey ++ gameId) newTimer }
    match setIntervalS st2 (.mainSingle gameId username) with
    | (st3, mid) =>
      match setIntervalS st3 (.ackSingle gameId username) with
      | (st4, aid) =>
        let st5 := { st4 with timesync := alSet st4.timesync gameId ⟨mid, aid, [(uKey, now)]⟩ }
        let st6 := { st5 with joinableGames :=
          (st5.joinableGames.filter (fun g => !(g.host == username))) ++
          [⟨username, tc, gameId⟩] }
        ⟨st6, [Event.dbInsert gameId game] ++ evsLeave ++ evsJoin ++
              [Event.gameCreated gameId game] ++ broadcastLists st6, none⟩

/-- The `socket.on('newGame')` handler with its try/catch: a thrown error
    is logged and a generic internal error is emitted back on the
    `gameCreated` channel. -/
def newGameHandler (st : ServerState) (sid : String) (timeControl : Option String)
    (coin : Bool) (now : Int) : ServerState × List Event :=
  match newGameBody st sid timeControl coin now with
  | ⟨st1, evs, none⟩ => (st1, evs)
  | ⟨st1, evs, some e⟩ => (st1, evs ++ [Event.logErr e, Event.gameCreatedErr sid])

/- ## The joinGame handler (server.js lines 467-653) -/

/-- Shared tail of the joinGame handler, after the seat-filling block
    (which the watcher branch skips entirely): room moves, `gameJoined`
    emission, lobby maintenance, finished replay, lobby broadcast. -/
def joinAfterSeats (st : ServerState) (sid : String) (username : Option String)
    (gameId : String) (game : Game) (watcher : Bool) : Outcome :=
  let uKey := jsShowU username
  let evsLeave : List Event :=
    match st.currentGameId.lookup uKey with
    | some prev =>
      [Event.leaveRoom sid prev,
       Event.leaveRoom sid (uKey ++ jsShowU (st.sockets.lookup uKey) ++ prev)]
    | none => []
  let evsJoin := [Event.joinRoom sid gameId, Event.joinRoom sid (uKey ++ sid ++ gameId)]
  let st1 := { st with currentGameId := alSet st.currentGameId uKey gameId }
  let st2 := { st1 with joinableGames := st1.joinableGames.filter (fun g => g.gameId ≠ gameId) }
  let alreadyWatchable := st2.watchableGames.any (fun g => g.gameId == gameId)
  let st3 :=
    if !alreadyWatchable && !game.state.finished then
      { st2 with watchableGames := st2.watchableGames ++
          [⟨some (jsShow game.white.username ++ " vs " ++ jsShow game.black.username),
            game.timeControlString, gameId⟩] }
    else st2
  let evsFin : List Event :=
    if game.state.finished then
      [Event.gameOverEvt (uKey ++ sid ++ gameId) game.result.description game.result.winner,
       Event.timesyncEvt (uKey ++ jsShowU (st3.sockets.lookup uKey) ++ gameId) gameId
         [(jsShow game.white.username, game.white.time),
          (jsShow game.black.username, game.black.time)]]
    else []
  ⟨st3, evsLeave ++ evsJoin ++ [Event.gameJoined sid game watcher] ++ evsFin ++
        broadcastLists st3, none⟩

/-- Body of the `socket.on('joinGame')` handler.  The joiner is a watcher
    when the session is not joinable, already finished, or hosted by the
    joiner; only the non-watcher branch fills a seat, creates a timer and
    rebuilds the time-sync loops. -/
def joinGameBody (st : ServerState) (sid : String) (gameId : String) (now : Int) : Outcome :=
  let username := st.users.lookup sid
  match st.games.lookup gameId with
  | none => ⟨st, [], some "TypeError: state of null"⟩
  | some game =>
    let watcher := !game.state.joinable || game.state.finished || game.host == username
    if watcher then
      joinAfterSeats st sid username gameId game true
    else
      let orientWhite := !game.white.username.isSome
      let upd : GameUpdate :=
        if orientWhite then
          { whiteSeat := some username, guest := some username, joinable := some false }
        else
          { blackSeat := some username, guest := some username, joinable := some false }
      let opponent := if orientWhite then game.black.username else game.white.username
      match updateGameDoc st gameId upd with
      | (st1, none, evU) => ⟨st1, [evU], some "TypeError: players of null"⟩
      | (st1, some game1, evU) =>
        let evOpp := Event.updateGameEvt
          (jsShow opponent ++ jsShowU (st1.sockets.lookup (jsShow opponent)) ++ gameId)
          (some game1)
        let newTimer : Timer := ⟨none, (secondsFor game1.timeControlString).getD 0⟩
        let st2 := { st1 with
          timers := alSet st1.timers (jsShowU username ++ gameId) newTimer }
        match st2.timesync.lookup gameId with
        | none =>
          -- `timesync[gameId].lastTimeSync` on a missing record throws
          -- (the `if (timesync[gameId])` guard only skips the clearing)
          ⟨st2, [evU, evOpp], some "TypeError: lastTimeSync of undefined"⟩
        | some ts =>
          let st3 := clearIntervalS (clearIntervalS st2 ts.mainLoop) ts.ackLoop
          let lastTS := alSet ts.lastTimeSync (jsShowU username) now
          let whiteU := game1.white.username
          let blackU := game1.black.username
          match setIntervalS st3 (.mainDual gameId whiteU blackU) with
          | (st4, mid) =>
            match setIntervalS st4 (.ackDual gameId whiteU blackU) with
            | (st5, aid) =>
              let st6 := { st5 with timesync := alSet st5.timesync gameId ⟨mid, aid, lastTS⟩ }
              match joinAfterSeats st6 sid username gameId game1 false with
              | ⟨st7, evs, e⟩ => ⟨st7, [evU, evOpp] ++ evs, e⟩

/-- The `socket.on('joinGame')` handler with its try/catch: a thrown
    error is logged and a generic internal error is emitted back on the
    `gameJoined` channel. -/
def joinGameHandler (st : ServerState) (sid : String) (gameId : String) (now : Int) :
    ServerState × List Event :=
  match joinGameBody st sid gameId now with
  | ⟨st1, evs, none⟩ => (st1, evs)
  | ⟨st1, evs, some e⟩ => (st1, evs ++ [Event.logErr e, Event.gameJoinedErr sid])

/- ## The liveness-check callbacks (server.js lines 389-415 and 539-561) -/

/-- One firing of the ackLoop installed by the newGame handler (only the
    host is known).  When the host's last acknowledgment is stale it
    removes the session from both lobby lists, rebroadcasts them, and
    calls `gameOver(gameId, null, null, {result: 'abandonment',
    winner: null})`.  These callbacks run outside any try/catch, so a
    thrown error is left in `err`. -/
def fireAckSingle (st : ServerState) (gameId : String) (username : Option String)
    (now : Int) : Outcome :=
  match st.timesync.lookup gameId with
  | none => ⟨st, [], none⟩
  | some ts =>
    match ts.lastTimeSync.lookup (jsShowU username) with
    | none => ⟨st, [], some "TypeError: getTime of undefined"⟩
    | some last =>
      if |now - last| > TIMESYNC_TIMEOUT then
        let st1 := { st with
          joinableGames := st.joinableGames.filter (fun g => g.gameId ≠ gameId),
          watchableGames := st.watchableGames.filter (fun g => g.gameId ≠ gameId) }
        let evs := broadcastLists st1
        let o := gameOverRun st1 gameId none none ⟨some "abandonment", none⟩
        ⟨o.state, evs ++ o.events, o.err⟩
      else ⟨st, [], none⟩

/-- One firing of the ackLoop installed by the joinGame handler (both
    seats known).  Each side's staleness check finalizes with result
    `abandonment` and the opponent as winner; the white check runs first
    and an exception from it aborts the callback. -/
def fireAckDual (st : ServerState) (gameId : String) (whiteU blackU : Option String)
    (now : Int) : Outcome :=
  match st.timesync.lookup gameId with
  | none => ⟨st, [], some "TypeError: lastTimeSync of null"⟩
  | some ts =>
    match ts.lastTimeSync.lookup (jsShow whiteU) with
    | none => ⟨st, [], some "TypeError: getTime of undefined"⟩
    | some lastW =>
      let afterW :=
        if |now - lastW| > TIMESYNC_TIMEOUT then
          gameOverRun st gameId whiteU blackU ⟨some "abandonment", blackU⟩
        else ⟨st, [], none⟩
      match afterW.err with
      | some _ => afterW
      | none =>
        match ts.lastTimeSync.lookup (jsShow blackU) with
        | none => ⟨afterW.state, afterW.events, some "TypeError: getTime of undefined"⟩
        | some lastB =>
          if |now - lastB| > TIMESYNC_TIMEOUT then
            let o := gameOverRun afterW.state gameId whiteU blackU ⟨some "abandonment", whiteU⟩
            ⟨o.state, afterW.events ++ o.events, o.err⟩
          else afterW

/- ## Concrete states used by witnesses and counterexamples -/

/-- A two-seat game `g1`, alice (host) as white and bob as black. -/
def g1Active (started : Bool) : Game :=
  { host := some "alice", guest := some "bob",
    white := ⟨some "alice", some 300⟩,
    black := ⟨some "bob", some 300⟩,
    timeControlString := "5+0",
    state := ⟨initialFen, false, started, false, none⟩,
    history := ⟨"", []⟩,
    result := ⟨none, none⟩ }

/-- Server state right after bob joined alice's game; no move has been
    played yet and no decrement loop is running. -/
def stJoined : ServerState :=
  { games := [("g1", g1Active false)],
    timers := [("aliceg1", ⟨none, 300⟩), ("bobg1", ⟨none, 300⟩)],
    timesync := [("g1", ⟨0, 1, [("alice", 0), ("bob", 0)]⟩)],
    users := [("sA", "alice"), ("sB", "bob")],
    sockets := [("alice", "sA"), ("bob", "sB")],
    currentGameId := [("alice", "g1"), ("bob", "g1")],
    joinableGames := [],
    watchableGames := [⟨some "alice vs bob", "5+0", "g1"⟩],
    playerReceivedLastmove := [],
    lastMoveFromGame := [],
    activeLoops := [⟨0, .mainDual "g1" (some "alice") (some "bob")⟩,
                    ⟨1, .ackDual "g1" (some "alice") (some "bob")⟩],
    nextLoopId := 2,
    nextGameId := 1 }

/-- Like `stJoined` but the game is past the grace period and bob's
    decrement loop (handle 2) is currently running. -/
def stC2 : ServerState :=
  { stJoined with
    games := [("g1", g1Active true)],
    timers := [("aliceg1", ⟨none, 295⟩), ("bobg1", ⟨some 2, 300⟩)],
    activeLoops := stJoined.activeLoops ++ [⟨2, .timerLoop (some "bob") "g1" "alice"⟩],
    nextLoopId := 3 }

/-- Like `stJoined` but the game is already past the grace period
    (started = true); no decrement loop is running. -/
def stC9 : ServerState :=
  { stJoined with games := [("g1", g1Active true)] }

/-- An open single-seat game: alice hosts as white, nobody has joined. -/
def g1Open : Game :=
  { host := some "alice", guest := none,
    white := ⟨some "alice", some 300⟩,
    black := ⟨none, some 300⟩,
    timeControlString := "5+0",
    state := ⟨initialFen, true, false, false, none⟩,
    history := ⟨"", []⟩,
    result := ⟨none, none⟩ }

/-- Server state right after alice created `g1` and before anyone joined. -/
def stC5 : ServerState :=
  { games := [("g1", g1Open)],
    timers := [("aliceg1", ⟨none, 300⟩)],
    timesync := [("g1", ⟨0, 1, [("alice", 0)]⟩)],
    users := [("sA", "alice")],
    sockets := [("alice", "sA")],
    currentGameId := [("alice", "g1")],
    joinableGames := [⟨some "alice", "5+0", "g1"⟩],
    watchableGames := [],
    playerReceivedLastmove := [],
    lastMoveFromGame := [],
    activeLoops := [⟨0, .mainSingle "g1" (some "alice")⟩, ⟨1, .ackSingle "g1" (some "alice")⟩],
    nextLoopId := 2,
    nextGameId := 1 }

/-- A finished two-seat game. -/
def g1Finished : Game :=
  { host := some "alice", guest := some "bob",
    white := ⟨some "alice", some 10⟩,
    black := ⟨some "bob", some 20⟩,
    timeControlString := "5+0",
    state := ⟨initialFen, false, true, true, some "e4"⟩,
    history := ⟨"1. e4", ["e4"]⟩,
    result := ⟨some "resignation", some "alice"⟩ }

/-- Server state holding the finished game `g1`. -/
def stFinished : ServerState :=
  { stJoined with games := [("g1", g1Finished)] }

/-- The opponent computed by the move handler from the payload username
    and the (updated) game document: the black seat when the payload
    username equals the white seat's username, else the white seat. -/
def moveOpp (g : Game) (md : MoveData) : Option String :=
  if some md.username == g.white.username then g.black.username else g.white.username

/-- The clock-switch gate of the move handler:
    `orientation === 'black' || game.state.started`, where orientation is
    black exactly when the payload username differs from the white
    seat's username. -/
def moveGate (g : Game) (md : MoveData) : Bool :=
  (!(some md.username == g.white.username)) || g.state.started

/- ## Projections and small lemmas used by the claim theorems -/

/-- The joinable list carried by a `gamesList` event. -/
def listedJoinable : Event → List LobbyEntry
  | .gamesList _ gs _ => gs
  | _ => []

def isJoinRoomEvt : Event → Bool
  | .joinRoom _ _ => true
  | _ => false

def isDbEvt : Event → Bool
  | .dbInsert _ _ => true
  | .dbUpdate _ _ => true
  | _ => false

def isGameOverEvt : Event → Bool
  | .gameOverEvt _ _ _ => true
  | _ => false

/-- Number of termination (`gameOver`) emissions in an event trace. -/
def countGameOverEvts (evs : List Event) : Nat :=
  (evs.filter isGameOverEvt).length

/-- A game past the grace period whose black-side decrement loop
    (handle 2) is running with `t` seconds left for bob. -/
def stClockAt (t : Int) : ServerState :=
  { games := [("g1", g1Active true)],
    timers := [("aliceg1", ⟨none, 295⟩), ("bobg1", ⟨some 2, t⟩)],
    timesync := [("g1", ⟨0, 1, [("alice", 0), ("bob", 0)]⟩)],
    users := [("sA", "alice"), ("sB", "bob")],
    sockets := [("alice", "sA"), ("bob", "sB")],
    currentGameId := [("alice", "g1"), ("bob", "g1")],
    joinableGames := [],
    watchableGames := [⟨some "alice vs bob", "5+0", "g1"⟩],
    playerReceivedLastmove := [],
    lastMoveFromGame := [],
    activeLoops := [⟨0, .mainDual "g1" (some "alice") (some "bob")⟩,
                    ⟨1, .ackDual "g1" (some "alice") (some "bob")⟩,
                    ⟨2, .timerLoop (some "bob") "g1" "alice"⟩],
    nextLoopId := 3, nextGameId := 1 }

/- ## Library lemmas about the embedded primitives -/

theorem lookup_alSet_self {α : Type} (l : List (String × α)) (k : String) (v : α) :
    (alSet l k v).lookup k = some v := by
  induction l with
  | nil => simp [alSet, List.lookup]
  | cons p t ih =>
    obtain ⟨k', v'⟩ := p
    by_cases h : k' = k
    · simp [alSet, h, List.lookup]
    · simp only [alSet, if_neg h, List.lookup]
      have : (k == k') = false := by
        simp [beq_iff_eq]; exact fun hk => h hk.symm
      simp [this, ih]

theorem lookup_alSet_ne {α : Type} (l : List (String × α)) (k k' : String) (v : α)
    (h : k' ≠ k) : (alSet l k v).lookup k' = l.lookup k' := by
  have hne : (k' == k) = false := beq_eq_false_iff_ne.mpr h
  induction l with
  | nil => simp [alSet, List.lookup, hne]
  | cons p t ih =>
    obtain ⟨k₀, v₀⟩ := p
    by_cases h0 : k₀ = k
    · subst h0
      simp [alSet, List.lookup, hne]
    · simp only [alSet, if_neg h0, List.lookup]
      cases hbe : (k' == k₀) <;> simp [hbe, ih]

theorem lookup_alSet_isSome {α : Type} (l : List (String × α)) (k k' : String) (v : α)
    (h : (l.lookup k').isSome) : ((alSet l k v).lookup k').isSome := by
  by_cases he : k' = k
  · subst he; simp [lookup_alSet_self]
  · rw [lookup_alSet_ne l k k' v he]; exact h

theorem broadcast_filter_join (st : ServerState) :
    (broadcastLists st).filter isJoinRoomEvt = [] := by
  unfold broadcastLists
  induction st.sockets with
  | nil => rfl
  | cons p t ih => simpa [gamesListEventFor, isJoinRoomEvt] using ih

theorem broadcast_filter_db (st : ServerState) :
    (broadcastLists st).filter isDbEvt = [] := by
  unfold broadcastLists
  induction st.sockets with
  | nil => rfl
  | cons p t ih => simpa [gamesListEventFor, isDbEvt] using ih

theorem broadcast_filter_gameOver (st : ServerState) :
    (broadcastLists st).filter isGameOverEvt = [] := by
  unfold broadcastLists
  induction st.sockets with
  | nil => rfl
  | cons p t ih => simpa [gamesListEventFor, isGameOverEvt] using ih

theorem find_eq_none_of_forall_ne (l : List ActiveLoop) (lid : Nat)
    (h : ∀ al ∈ l, al.id ≠ lid) : l.find? (fun al => al.id == lid) = none := by
  rw [List.find?_eq_none]
  intro al hal
  simpa using h al hal

/- ## Claim theorems -/

/-- Claim C1: once a session's finished flag is true, the finalize path
    (`gameOver`) is a no-op — it emits no termination event and mutates
    no state (position, history, result, both clocks all unchanged) — and
    a move event on a finished session is likewise rejected as a no-op.
    The timer-lookup hypotheses reflect that both seats of a finished
    game hold timer entries (both were created when the seats were
    taken). -/
theorem c1_finished_session_noop
    (st : ServerState) (gid : String) (p1 p2 : Option String) (rd : ResultData)
    (oracle : Oracle) (sid : String) (md : MoveData)
    (g : Game) (hg : st.games.lookup gid = some g) (hfin : g.state.finished = true)
    (tw : Timer) (htw : st.timers.lookup (jsShow g.white.username ++ gid) = some tw)
    (tb : Timer) (htb : st.timers.lookup (jsShow g.black.username ++ gid) = some tb)
    (g' : Game) (hg' : st.games.lookup md.gameId = some g')
    (hfin' : g'.state.finished = true) :
    gameOverRun st gid p1 p2 rd = ⟨st, [], none⟩ ∧
    moveHandler oracle st sid md = (st, []) := by
  constructor
  · unfold gameOverRun
    rw [hg]
    simp [htw, htb, hfin]
  · have hb : moveBody oracle st md = ⟨st, [], none⟩ := by
      unfold moveBody
      rw [hg']
      simp [hfin']
    unfold moveHandler
    rw [hb]

/-- Witness for C1 at a concrete finished game. -/
theorem c1_finished_session_noop_witness :
    gameOverRun stFinished "g1" (some "alice") (some "bob")
        ⟨some "resignation", some "bob"⟩ = ⟨stFinished, [], none⟩ ∧
    moveHandler rejectOracle stFinished "sA" ⟨"alice", "g1", none, "d4"⟩
        = (stFinished, []) :=
  c1_finished_session_noop stFinished "g1" (some "alice") (some "bob")
    ⟨some "resignation", some "bob"⟩ rejectOracle "sA" ⟨"alice", "g1", none, "d4"⟩
    g1Finished (by decide) (by decide)
    ⟨none, 300⟩ (by decide) ⟨none, 300⟩ (by decide)
    g1Finished (by decide) (by decide)

/-- Claim C2 (code bug): starting a clock for a key whose clock is
    already running is NOT a no-op.  In `stC2` exactly one decrement loop
    (handle 2) is scheduled for the key `bobg1` and it is the loop stored
    in bob's timer slot; a second consecutive move event from alice (out
    of turn, rejected by the rules oracle, position unchanged) overwrites
    the slot with a fresh interval without clearing handle 2, leaving two
    decrement loops concurrently scheduled for the same (participant,
    session) key. -/
theorem c2_duplicate_decrement_loop :
    (decLoopsFor stC2 "bobg1").length = 1 ∧
    (decLoopsFor (moveHandler rejectOracle stC2 "sA" ⟨"alice", "g1", none, "e5"⟩).1
      "bobg1").length = 2 := by decide

/-- Claim C5 (code bug): when no opponent context exists (single-seat
    session) and the host's liveness acknowledgment is stale, the
    neutral-termination path throws instead of finalizing: `gameOver`
    reads `timers["null" + gameId].time` for the unbound seat, which is
    undefined.  No `gameOver` event is emitted, the session stays
    unfinished, and the time-sync loops are not torn down. -/
theorem c5_neutral_abandonment_crashes :
    (fireAckSingle stC5 "g1" (some "alice") 180001).err
      = some "TypeError: time of undefined" ∧
    ((fireAckSingle stC5 "g1" (some "alice") 180001).state.games.lookup "g1").map
      (fun g => g.state.finished) = some false ∧
    countGameOverEvts (fireAckSingle stC5 "g1" (some "alice") 180001).events = 0 ∧
    ((fireAckSingle stC5 "g1" (some "alice") 180001).state.timesync.lookup "g1").isSome
      = true ∧
    (fireAckSingle stC5 "g1" (some "alice") 180001).state.activeLoops
      = stC5.activeLoops := by decide

/-- Claim C10: the move handler's entire effect is determined solely by
    the client-supplied payload (and the server state); the sending
    socket is never consulted, so two identical payloads from different
    connections produce identical effects. -/
theorem c10_move_sender_independent (oracle : Oracle) (st : ServerState)
    (s1 s2 : String) (md : MoveData) :
    moveHandler oracle st s1 md = moveHandler oracle st s2 md := rfl

/-- Counterexample to claim C3: in `stJoined` no move has ever been
    played (empty pgn, empty move list, started = false) and no decrement
    loop runs; a single move event carrying the black seat's username,
    whose move the oracle rejects (position and history unchanged),
    nevertheless starts white's clock — the opponent clock starts even
    though the first mover's opponent has not played any reply (no move
    exists at all). -/
theorem c3_clock_starts_without_reply :
    decLoopsFor stJoined "aliceg1" = [] ∧
    (stJoined.games.lookup "g1").map (fun g => g.state.started) = some false ∧
    (stJoined.games.lookup "g1").map (fun g => g.history.moves) = some [] ∧
    (decLoopsFor (moveHandler rejectOracle stJoined "sB" ⟨"bob", "g1", none, "e5"⟩).1
      "aliceg1").length = 1 ∧
    ((moveHandler rejectOracle stJoined "sB" ⟨"bob", "g1", none, "e5"⟩).1.games.lookup
      "g1").map (fun g => g.history.moves) = some [] ∧
    ((moveHandler rejectOracle stJoined "sB" ⟨"bob", "g1", none, "e5"⟩).1.games.lookup
      "g1").map (fun g => g.history.pgn) = some "" := by decide

/-- Counterexample to claim C8: an internal fault in the move handler
    (here: the game lookup returns null and `.state` throws) is caught
    and logged, but NO generic internal error is surfaced to the
    originating participant — the handler's catch block only calls
    `console.log`. -/
theorem c8_move_fault_not_surfaced :
    moveHandler rejectOracle stC5 "sA" ⟨"x", "gX", none, "e4"⟩
      = (stC5, [Event.logErr "TypeError: state of null"]) ∧
    (∀ e ∈ (moveHandler rejectOracle stC5 "sA" ⟨"x", "gX", none, "e4"⟩).2,
      e ≠ Event.gameCreatedErr "sA" ∧ e ≠ Event.gameJoinedErr "sA") := by decide

/-- Counterexample to claim C9: on a session already past the grace
    period (`started` = true in `stC9`, so the single write "at the first
    reply" is long past), a later move event writes `state.started :=
    true` to the database again — the flag is written on every
    clock-gated move, not exactly once. -/
theorem c9_started_written_again :
    (stC9.games.lookup "g1").map (fun g => g.state.started) = some true ∧
    Event.dbUpdate "g1" { started := some true }
      ∈ (moveHandler rejectOracle stC9 "sA" ⟨"alice", "g1", none, "d4"⟩).2 := by decide

/-- Claim C7: every lobby listing built for a viewer — the direct
    getGames reply, and each per-viewer event of the broadcast loop that
    every lifecycle transition uses (`broadcastLists` is the only
    broadcast form in the code) — excludes every joinable session hosted
    by that viewer. -/
theorem c7_lobby_viewer_filtered
    (st : ServerState) (sid u : String) (hu : st.users.lookup sid = some u) :
    (∀ ev ∈ getGamesHandler st sid, ∀ e ∈ listedJoinable ev, ¬ e.host = some u) ∧
    (∀ v s : String, ∀ e ∈ listedJoinable (gamesListEventFor st v s), ¬ e.host = some v) ∧
    broadcastLists st = st.sockets.map (fun p => gamesListEventFor st p.1 p.2) := by
  refine ⟨?_, ?_, rfl⟩
  · intro ev hev e he
    simp only [getGamesHandler, hu, List.mem_singleton] at hev
    subst hev
    simp only [listedJoinable, List.mem_filter] at he
    simpa using he.2
  · intro v s e he
    simp only [gamesListEventFor, listedJoinable, List.mem_filter] at he
    simpa using he.2

/-- Witness for C7 at a concrete state and viewer. -/
theorem c7_lobby_viewer_filtered_witness :
    (∀ ev ∈ getGamesHandler stC5 "sA", ∀ e ∈ listedJoinable ev, ¬ e.host = some "alice") ∧
    (∀ v s : String, ∀ e ∈ listedJoinable (gamesListEventFor stC5 v s),
      ¬ e.host = some v) ∧
    broadcastLists stC5 = stC5.sockets.map (fun p => gamesListEventFor stC5 p.1 p.2) :=
  c7_lobby_viewer_filtered stC5 "sA" "alice" (by decide)

/-- Claim C6: a join of a non-joinable session (full, finished, or the
    joiner is the host) attaches the joiner as spectator only: the games
    collection, the timers and the time-sync loops are untouched (so the
    player slots are unchanged and no clock entry is created for the
    joiner), nothing is written to the database, and the only rooms
    joined are the session's broadcast room and the joiner's
    per-connection room for that session. -/
theorem c6_watcher_join_frame
    (st : ServerState) (sid gameId : String) (now : Int)
    (g : Game) (hg : st.games.lookup gameId = some g)
    (hw : (!g.state.joinable || g.state.finished || (g.host == st.users.lookup sid))
            = true) :
    (joinGameHandler st sid gameId now).1.games = st.games ∧
    (joinGameHandler st sid gameId now).1.timers = st.timers ∧
    (joinGameHandler st sid gameId now).1.timesync = st.timesync ∧
    (joinGameHandler st sid gameId now).1.activeLoops = st.activeLoops ∧
    ((joinGameHandler st sid gameId now).2.filter isJoinRoomEvt)
      = [Event.joinRoom sid gameId,
         Event.joinRoom sid (jsShowU (st.users.lookup sid) ++ sid ++ gameId)] ∧
    ((joinGameHandler st sid gameId now).2.filter isDbEvt) = [] := by
  have hb : joinGameBody st sid gameId now
      = joinAfterSeats st sid (st.users.lookup sid) gameId g true := by
    unfold joinGameBody
    rw [hg]
    simp [hw]
  have hh : joinGameHandler st sid gameId now
      = ((joinAfterSeats st sid (st.users.lookup sid) gameId g true).state,
         (joinAfterSeats st sid (st.users.lookup sid) gameId g true).events) := by
    unfold joinGameHandler
    rw [hb]
    unfold joinAfterSeats
    rfl
  rw [hh]
  unfold joinAfterSeats
  cases hc : st.currentGameId.lookup (jsShowU (st.users.lookup sid)) <;>
    cases hf : g.state.finished <;>
      simp [hc, hf, List.filter_append, broadcast_filter_join, broadcast_filter_db,
        isJoinRoomEvt, isDbEvt] <;>
      split <;> simp

/-- Witness for C6: alice "joins" her own still-open session `g1`. -/
theorem c6_watcher_join_frame_witness :
    (joinGameHandler stC5 "sA" "g1" 7).1.games = stC5.games ∧
    (joinGameHandler stC5 "sA" "g1" 7).1.timers = stC5.timers ∧
    (joinGameHandler stC5 "sA" "g1" 7).1.timesync = stC5.timesync ∧
    (joinGameHandler stC5 "sA" "g1" 7).1.activeLoops = stC5.activeLoops ∧
    ((joinGameHandler stC5 "sA" "g1" 7).2.filter isJoinRoomEvt)
      = [Event.joinRoom "sA" "g1",
         Event.joinRoom "sA" (jsShowU (stC5.users.lookup "sA") ++ "sA" ++ "g1")] ∧
    ((joinGameHandler stC5 "sA" "g1" 7).2.filter isDbEvt) = [] :=
  c6_watcher_join_frame stC5 "sA" "g1" 7 g1Open (by decide) (by decide)

/-- Claim C8 (amended): every internal fault raised in a handler body is
    caught at that handler's try/catch boundary and logged, and never
    rethrown (each handler is a total function of its inputs); the
    session-creation and join handlers additionally surface a generic
    internal error to the originating participant, while the move handler
    swallows the fault after logging it. -/
theorem c8_faults_caught_amended
    (oracle : Oracle) (st : ServerState) (sid : String) (md : MoveData)
    (tc : Option String) (coin : Bool) (now now2 : Int) (gid : String)
    (e1 e2 e3 : String) :
    ((moveBody oracle st md).err = some e1 →
      moveHandler oracle st sid md
        = ((moveBody oracle st md).state,
           (moveBody oracle st md).events ++ [Event.logErr e1])) ∧
    ((newGameBody st sid tc coin now).err = some e2 →
      newGameHandler st sid tc coin now
        = ((newGameBody st sid tc coin now).state,
           (newGameBody st sid tc coin now).events
             ++ [Event.logErr e2, Event.gameCreatedErr sid])) ∧
    ((joinGameBody st sid gid now2).err = some e3 →
      joinGameHandler st sid gid now2
        = ((joinGameBody st sid gid now2).state,
           (joinGameBody st sid gid now2).events
             ++ [Event.logErr e3, Event.gameJoinedErr sid])) := by
  refine ⟨?_, ?_, ?_⟩
  · intro h
    unfold moveHandler
    rcases hb : moveBody oracle st md with ⟨s', evs, err⟩
    rw [hb] at h
    simp at h
    subst h
    simp
  · intro h
    unfold newGameHandler
    rcases hb : newGameBody st sid tc coin now with ⟨s', evs, err⟩
    rw [hb] at h
    simp at h
    subst h
    simp
  · intro h
    unfold joinGameHandler
    rcases hb : joinGameBody st sid gid now2 with ⟨s', evs, err⟩
    rw [hb] at h
    simp at h
    subst h
    simp

/-- Witness for the amended C8 at three concrete faulting inputs. -/
theorem c8_faults_caught_amended_witness :
    moveHandler rejectOracle stC5 "sA" ⟨"x", "gX", none, "e4"⟩
      = ((moveBody rejectOracle stC5 ⟨"x", "gX", none, "e4"⟩).state,
         (moveBody rejectOracle stC5 ⟨"x", "gX", none, "e4"⟩).events
           ++ [Event.logErr "TypeError: state of null"]) ∧
    newGameHandler stC5 "sA" none true 0
      = ((newGameBody stC5 "sA" none true 0).state,
         (newGameBody stC5 "sA" none true 0).events
           ++ [Event.logErr "TypeError: split of undefined", Event.gameCreatedErr "sA"]) ∧
    joinGameHandler stC5 "sA" "gX" 0
      = ((joinGameBody stC5 "sA" "gX" 0).state,
         (joinGameBody stC5 "sA" "gX" 0).events
           ++ [Event.logErr "TypeError: state of null", Event.gameJoinedErr "sA"]) :=
  ⟨(c8_faults_caught_amended rejectOracle stC5 "sA" ⟨"x", "gX", none, "e4"⟩ none true 0 0
      "gX" "TypeError: state of null" "TypeError: split of undefined"
      "TypeError: state of null").1 (by decide),
   (c8_faults_caught_amended rejectOracle stC5 "sA" ⟨"x", "gX", none, "e4"⟩ none true 0 0
      "gX" "TypeError: state of null" "TypeError: split of undefined"
      "TypeError: state of null").2.1 (by decide),
   (c8_faults_caught_amended rejectOracle stC5 "sA" ⟨"x", "gX", none, "e4"⟩ none true 0 0
      "gX" "TypeError: state of null" "TypeError: split of undefined"
      "TypeError: state of null").2.2 (by decide)⟩

/-- Shared computation of the move handler's clock switch and started
    write under the standard path hypotheses: unfinished session, both
    the mover's and the opponent's timer entries present, oracle not
    reporting a terminal position, opponent key distinct from mover key. -/
theorem moveHandler_clock_gate
    (oracle : Oracle) (st : ServerState) (sid : String) (md : MoveData)
    (g : Game) (tmU tmO : Timer)
    (hg : st.games.lookup md.gameId = some g)
    (hnf : g.state.finished = false)
    (hmt : st.timers.lookup (md.username ++ md.gameId) = some tmU)
    (hot : st.timers.lookup (jsShow (moveOpp g md) ++ md.gameId) = some tmO)
    (hne : jsShow (moveOpp g md) ++ md.gameId ≠ md.username ++ md.gameId)
    (hgo : oracle.isGameOver (oracle.movePgn g.history.pgn md.move) = false) :
    (moveGate g md = true →
      (moveHandler oracle st sid md).1.timers.lookup (jsShow (moveOpp g md) ++ md.gameId)
        = some ⟨some st.nextLoopId, tmO.time⟩ ∧
      (⟨st.nextLoopId, .timerLoop (moveOpp g md) md.gameId md.username⟩ : ActiveLoop)
        ∈ (moveHandler oracle st sid md).1.activeLoops ∧
      (moveHandler oracle st sid md).1.nextLoopId = st.nextLoopId + 1 ∧
      ((moveHandler oracle st sid md).1.games.lookup md.gameId).map
        (fun x => x.state.started) = some true ∧
      Event.dbUpdate md.gameId { started := some true }
        ∈ (moveHandler oracle st sid md).2) ∧
    (moveGate g md = false →
      (moveHandler oracle st sid md).1.timers.lookup (jsShow (moveOpp g md) ++ md.gameId)
        = some tmO ∧
      (moveHandler oracle st sid md).1.nextLoopId = st.nextLoopId ∧
      (∀ al ∈ (moveHandler oracle st sid md).1.activeLoops, al ∈ st.activeLoops) ∧
      ((moveHandler oracle st sid md).1.games.lookup md.gameId).map
        (fun x => x.state.started) = some g.state.started ∧
      Event.dbUpdate md.gameId { started := some true }
        ∉ (moveHandler oracle st sid md).2) := by
  have hot' : ∀ v : Timer,
      (alSet st.timers (md.username ++ md.gameId) v).lookup
        (jsShow (moveOpp g md) ++ md.gameId) = some tmO := by
    intro v
    rw [lookup_alSet_ne _ _ _ _ hne]
    exact hot
  cases heq : (some md.username == g.white.username) with
  | false =>
    simp [moveOpp, heq] at hot hot'
    refine ⟨fun _ => ?_, fun hGate => ?_⟩
    · cases hml : tmU.loop <;>
        simp [moveHandler, moveBody, moveTail, updateGameDoc, setIntervalS, clearIntervalS,
          applyUpdate, moveOpp, hg, hnf, hmt, hml, heq, hot, hot', hgo, lookup_alSet_self]
    · simp [moveGate, heq] at hGate
  | true =>
    cases hst : g.state.started with
    | true =>
      simp [moveOpp, heq] at hot hot'
      refine ⟨fun _ => ?_, fun hGate => ?_⟩
      · cases hml : tmU.loop <;>
          simp [moveHandler, moveBody, moveTail, updateGameDoc, setIntervalS, clearIntervalS,
            applyUpdate, moveOpp, hg, hnf, hmt, hml, heq, hst, hot, hot', hgo,
            lookup_alSet_self]
      · simp [moveGate, heq, hst] at hGate
    | false =>
      simp [moveOpp, heq] at hot hot'
      refine ⟨fun hGate => ?_, fun _ => ?_⟩
      · simp [moveGate, heq, hst] at hGate
      · cases hml : tmU.loop <;>
          simp [moveHandler, moveBody, moveTail, updateGameDoc, setIntervalS, clearIntervalS,
            applyUpdate, moveOpp, hg, hnf, hmt, hml, heq, hst, hot, hot', hgo,
            lookup_alSet_self] <;>
          exact fun al h _ => h

/-- Claim C3 (amended): after a move event on an unfinished session
    (both relevant timer entries present, resulting position not
    terminal), the opponent's clock is (re)started if and only if the
    payload's username differs from the white seat's username (the
    handler's `orientation === 'black'` test) or the session's started
    flag is already true; the gate consults neither the move's legality
    nor whether a first move actually exists, so it is not literally
    "the reply to the very first move". -/
theorem c3_clock_gate_amended
    (oracle : Oracle) (st : ServerState) (sid : String) (md : MoveData)
    (g : Game) (tmU tmO : Timer)
    (hg : st.games.lookup md.gameId = some g)
    (hnf : g.state.finished = false)
    (hmt : st.timers.lookup (md.username ++ md.gameId) = some tmU)
    (hot : st.timers.lookup (jsShow (moveOpp g md) ++ md.gameId) = some tmO)
    (hne : jsShow (moveOpp g md) ++ md.gameId ≠ md.username ++ md.gameId)
    (hgo : oracle.isGameOver (oracle.movePgn g.history.pgn md.move) = false) :
    (moveGate g md = true →
      (moveHandler oracle st sid md).1.timers.lookup (jsShow (moveOpp g md) ++ md.gameId)
        = some ⟨some st.nextLoopId, tmO.time⟩ ∧
      (⟨st.nextLoopId, .timerLoop (moveOpp g md) md.gameId md.username⟩ : ActiveLoop)
        ∈ (moveHandler oracle st sid md).1.activeLoops ∧
      (moveHandler oracle st sid md).1.nextLoopId = st.nextLoopId + 1) ∧
    (moveGate g md = false →
      (moveHandler oracle st sid md).1.timers.lookup (jsShow (moveOpp g md) ++ md.gameId)
        = some tmO ∧
      (moveHandler oracle st sid md).1.nextLoopId = st.nextLoopId ∧
      ∀ al ∈ (moveHandler oracle st sid md).1.activeLoops, al ∈ st.activeLoops) := by
  obtain ⟨h1, h2⟩ := moveHandler_clock_gate oracle st sid md g tmU tmO hg hnf hmt hot hne hgo
  exact ⟨fun hG => ⟨(h1 hG).1, (h1 hG).2.1, (h1 hG).2.2.1⟩,
         fun hG => ⟨(h2 hG).1, (h2 hG).2.1, (h2 hG).2.2.1⟩⟩

/-- Witness for the amended C3: bob's first (rejected) move event passes
    the gate and starts alice's clock with her stored remaining time. -/
theorem c3_clock_gate_amended_witness :
    (moveHandler rejectOracle stJoined "sB" ⟨"bob", "g1", none, "e5"⟩).1.timers.lookup
        (jsShow (moveOpp (g1Active false) ⟨"bob", "g1", none, "e5"⟩) ++ "g1")
      = some ⟨some stJoined.nextLoopId, (300 : Int)⟩ ∧
    (⟨stJoined.nextLoopId,
      .timerLoop (moveOpp (g1Active false) ⟨"bob", "g1", none, "e5"⟩) "g1" "bob"⟩
        : ActiveLoop)
      ∈ (moveHandler rejectOracle stJoined "sB" ⟨"bob", "g1", none, "e5"⟩).1.activeLoops ∧
    (moveHandler rejectOracle stJoined "sB" ⟨"bob", "g1", none, "e5"⟩).1.nextLoopId
      = stJoined.nextLoopId + 1 :=
  (c3_clock_gate_amended rejectOracle stJoined "sB" ⟨"bob", "g1", none, "e5"⟩
    (g1Active false) ⟨none, 300⟩ ⟨none, 300⟩ (by decide) (by decide) (by decide)
    (by decide) (by decide) (by decide)).1 (by decide)

/-- Claim C9 (amended): the started flag is written true on every move
    event that passes the clock gate (payload username differing from
    the white seat, or session already started), not exactly once; its
    value becomes true at the first such move and is never reset by the
    move handler. -/
theorem c9_started_flag_amended
    (oracle : Oracle) (st : ServerState) (sid : String) (md : MoveData)
    (g : Game) (tmU tmO : Timer)
    (hg : st.games.lookup md.gameId = some g)
    (hnf : g.state.finished = false)
    (hmt : st.timers.lookup (md.username ++ md.gameId) = some tmU)
    (hot : st.timers.lookup (jsShow (moveOpp g md) ++ md.gameId) = some tmO)
    (hne : jsShow (moveOpp g md) ++ md.gameId ≠ md.username ++ md.gameId)
    (hgo : oracle.isGameOver (oracle.movePgn g.history.pgn md.move) = false) :
    (moveGate g md = true →
      ((moveHandler oracle st sid md).1.games.lookup md.gameId).map
        (fun x => x.state.started) = some true ∧
      Event.dbUpdate md.gameId { started := some true }
        ∈ (moveHandler oracle st sid md).2) ∧
    (moveGate g md = false →
      ((moveHandler oracle st sid md).1.games.lookup md.gameId).map
        (fun x => x.state.started) = some g.state.started ∧
      Event.dbUpdate md.gameId { started := some true }
        ∉ (moveHandler oracle st sid md).2) := by
  obtain ⟨h1, h2⟩ := moveHandler_clock_gate oracle st sid md g tmU tmO hg hnf hmt hot hne hgo
  exact ⟨fun hG => ⟨(h1 hG).2.2.2.1, (h1 hG).2.2.2.2⟩,
         fun hG => ⟨(h2 hG).2.2.2.1, (h2 hG).2.2.2.2⟩⟩

/-- A successful finalize: on an unfinished game with both seats' timers
    readable and both `player1` and `player2` given with present timer
    entries, `gameOver` emits exactly one termination event, throws
    nothing, stops `player2`'s clock, marks the game finished, and
    deschedules `player2`'s running loop (if any). -/
theorem gameOverRun_finalizes
    (st : ServerState) (gid u oname : String) (rd : ResultData)
    (g : Game) (tmM tmO : Timer)
    (hg : st.games.lookup gid = some g)
    (hnf : g.state.finished = false)
    (hwt : (st.timers.lookup (jsShow g.white.username ++ gid)).isSome = true)
    (hbt : (st.timers.lookup (jsShow g.black.username ++ gid)).isSome = true)
    (hmov : st.timers.lookup (u ++ gid) = some tmM)
    (hop : st.timers.lookup (oname ++ gid) = some tmO)
    (hneq : u ++ gid ≠ oname ++ gid) :
    countGameOverEvts (gameOverRun st gid (some u) (some oname) rd).events = 1 ∧
    (gameOverRun st gid (some u) (some oname) rd).err = none ∧
    (gameOverRun st gid (some u) (some oname) rd).state.timers.lookup (oname ++ gid)
      = some ⟨none, tmO.time⟩ ∧
    ((gameOverRun st gid (some u) (some oname) rd).state.games.lookup gid).map
      (fun x => x.state.finished) = some true ∧
    (∀ n, tmO.loop = some n →
      ∀ al ∈ (gameOverRun st gid (some u) (some oname) rd).state.activeLoops,
        al.id ≠ n) := by
  obtain ⟨tw, htw⟩ := Option.isSome_iff_exists.mp hwt
  obtain ⟨tb, htb⟩ := Option.isSome_iff_exists.mp hbt
  have hop2 : ∀ v : Timer,
      (alSet st.timers (u ++ gid) v).lookup (oname ++ gid) = some tmO := by
    intro v
    rw [lookup_alSet_ne _ _ _ _ (Ne.symm hneq)]
    exact hop
  cases hl2 : tmM.loop <;> cases hlo : tmO.loop <;> cases hts : st.timesync.lookup gid <;>
    simp [gameOverRun, stopClock, clearTimesync, clearIntervalS, updateGameDoc,
      alRemove, applyUpdate, countGameOverEvts, List.filter_append,
      broadcast_filter_gameOver, isGameOverEvt, hg, hnf, htw, htb, hmov, hop, hop2,
      hl2, hlo, hts, lookup_alSet_self] <;>
    first
      | (intros; assumption)
      | (obtain ⟨lo, ti⟩ := tmO; simp_all)

/-- Claim C4: a firing of the scheduled decrement loop decrements the
    running participant's remaining time by exactly 1, clamped at a
    floor of −1: a non-crossing firing emits nothing and keeps the loop
    scheduled, while the firing that crosses the floor invokes the
    timeout finalize (result kind 'ontime') exactly once, synchronously
    in that firing, marks the session finished, stops the clock and
    deschedules the loop, so any later firing of the same handle does
    nothing. -/
theorem c4_clock_tick
    (st : ServerState) (oname gid u : String) (lid : Nat) (t : Int) (g : Game)
    (hslot : st.timers.lookup (oname ++ gid) = some ⟨some lid, t⟩)
    (hal : st.activeLoops.find? (fun al => al.id == lid)
             = some ⟨lid, .timerLoop (some oname) gid u⟩)
    (hg : st.games.lookup gid = some g)
    (hnf : g.state.finished = false)
    (hmov : (st.timers.lookup (u ++ gid)).isSome = true)
    (hwt : (st.timers.lookup (jsShow g.white.username ++ gid)).isSome = true)
    (hbt : (st.timers.lookup (jsShow g.black.username ++ gid)).isSome = true)
    (hneq : u ++ gid ≠ oname ++ gid) :
    (1 ≤ t →
      fireLoopIfActive st lid
        = ⟨{ st with timers := alSet st.timers (oname ++ gid) ⟨some lid, t - 1⟩ },
           [], none⟩ ∧
      (-1 : Int) ≤ t - 1) ∧
    (t ≤ 0 →
      countGameOverEvts (fireLoopIfActive st lid).events = 1 ∧
      (fireLoopIfActive st lid).state.timers.lookup (oname ++ gid)
        = some ⟨none, -1⟩ ∧
      ((fireLoopIfActive st lid).state.games.lookup gid).map
        (fun x => x.state.finished) = some true ∧
      (fireLoopIfActive st lid).state.activeLoops.find? (fun al => al.id == lid)
        = none ∧
      fireLoopIfActive (fireLoopIfActive st lid).state lid
        = ⟨(fireLoopIfActive st lid).state, [], none⟩) := by
  have hfire : fireLoopIfActive st lid = timerTick st (some oname) gid u := by
    unfold fireLoopIfActive
    rw [hal]
  constructor
  · intro h1
    have hmax : max (-1 : Int) (t - 1) = t - 1 := max_eq_right (by omega)
    refine ⟨?_, by omega⟩
    rw [hfire]
    unfold timerTick
    simp only [jsShow, hslot, hmax]
    rw [if_neg (by omega : ¬(t - 1 ≤ (-1 : Int)))]
  · intro h2
    have hmax : max (-1 : Int) (t - 1) = -1 := max_eq_left (by omega)
    obtain ⟨tmM, hmovv⟩ := Option.isSome_iff_exists.mp hmov
    set st1 : ServerState :=
      { st with timers := alSet st.timers (oname ++ gid) ⟨some lid, -1⟩ } with hst1
    have hrun : fireLoopIfActive st lid
        = gameOverRun st1 gid (some u) (some oname) ⟨some "ontime", some u⟩ := by
      rw [hfire]
      unfold timerTick
      simp only [jsShow, hslot, hmax]
      rw [if_pos (le_refl (-1 : Int))]
    have hg1 : st1.games.lookup gid = some g := hg
    have hwt1 : (st1.timers.lookup (jsShow g.white.username ++ gid)).isSome = true :=
      lookup_alSet_isSome _ _ _ _ hwt
    have hbt1 : (st1.timers.lookup (jsShow g.black.username ++ gid)).isSome = true :=
      lookup_alSet_isSome _ _ _ _ hbt
    have hmov1 : st1.timers.lookup (u ++ gid) = some tmM := by
      show (alSet st.timers (oname ++ gid) ⟨some lid, -1⟩).lookup (u ++ gid) = some tmM
      rw [lookup_alSet_ne _ _ _ _ hneq]
      exact hmovv
    have hop1 : st1.timers.lookup (oname ++ gid) = some ⟨some lid, -1⟩ :=
      lookup_alSet_self _ _ _
    obtain ⟨hc1, hc2, hc3, hc4, hc5⟩ :=
      gameOverRun_finalizes st1 gid u oname ⟨some "ontime", some u⟩ g tmM ⟨some lid, -1⟩
        hg1 hnf hwt1 hbt1 hmov1 hop1 hneq
    have hfind : (gameOverRun st1 gid (some u) (some oname)
        ⟨some "ontime", some u⟩).state.activeLoops.find? (fun al => al.id == lid)
          = none :=
      find_eq_none_of_forall_ne _ _ (hc5 lid rfl)
    refine ⟨?_, ?_, ?_, ?_, ?_⟩
    · rw [hrun]; exact hc1
    · rw [hrun]; exact hc3
    · rw [hrun]; exact hc4
    · rw [hrun]; exact hfind
    · rw [hrun]
      unfold fireLoopIfActive
      rw [hfind]

/-- Witness for C4: a non-crossing firing at one second left, and the
    crossing firing at zero seconds left. -/
theorem c4_clock_tick_witness :
    (fireLoopIfActive (stClockAt 1) 2
      = ⟨{ stClockAt 1 with
           timers := alSet (stClockAt 1).timers ("bob" ++ "g1") (⟨some 2, 1 - 1⟩ : Timer) },
          [], none⟩ ∧
     (-1 : Int) ≤ 1 - 1) ∧
    (countGameOverEvts (fireLoopIfActive (stClockAt 0) 2).events = 1 ∧
     (fireLoopIfActive (stClockAt 0) 2).state.timers.lookup ("bob" ++ "g1")
       = some ⟨none, -1⟩ ∧
     ((fireLoopIfActive (stClockAt 0) 2).state.games.lookup "g1").map
       (fun x => x.state.finished) = some true ∧
     (fireLoopIfActive (stClockAt 0) 2).state.activeLoops.find?
       (fun al => al.id == 2) = none ∧
     fireLoopIfActive (fireLoopIfActive (stClockAt 0) 2).state 2
       = ⟨(fireLoopIfActive (stClockAt 0) 2).state, [], none⟩) :=
  ⟨(c4_clock_tick (stClockAt 1) "bob" "g1" "alice" 2 1 (g1Active true)
      (by decide) (by decide) (by decide) (by decide) (by decide) (by decide) (by decide)
      (by decide)).1 (by norm_num),
   (c4_clock_tick (stClockAt 0) "bob" "g1" "alice" 2 0 (g1Active true)
      (by decide) (by decide) (by decide) (by decide) (by decide) (by decide) (by decide)
      (by decide)).2 (by norm_num)⟩

/-- Witness for the amended C9: a move by alice on the already-started
    session writes the flag again. -/
theorem c9_started_flag_amended_witness :
    ((moveHandler rejectOracle stC9 "sA" ⟨"alice", "g1", none, "d4"⟩).1.games.lookup
      "g1").map (fun x => x.state.started) = some true ∧
    Event.dbUpdate "g1" { started := some true }
      ∈ (moveHandler rejectOracle stC9 "sA" ⟨"alice", "g1", none, "d4"⟩).2 :=
  (c9_started_flag_amended rejectOracle stC9 "sA" ⟨"alice", "g1", none, "d4"⟩
    (g1Active true) ⟨none, 300⟩ ⟨none, 300⟩ (by decide) (by decide) (by decide)
    (by decide) (by decide) (by decide)).1 (by decide)

end Neochess
